import Mathlib

/-!
Shallow embedding of `src/density/data/__init__.py` (the `density.data`
module): the data loader `db_to_pandas`, the historical-mean estimator
`get_historical_means`, the prediction-series builder `df_predict`, and the
comparison renderer `plot_prediction_point_estimate`.

Modelling conventions:
* A timestamp (`pandas.Timestamp` / entry of the `dump_time` index) is a
  natural number of seconds counted from the Unix epoch (1970-01-01 00:00:00,
  a Thursday).  `Timestamp.dayofweek` (Monday = 0, as in pandas) and
  `Timestamp.time()` (the time-of-day, to second precision) become arithmetic
  on that number.
* A `pandas.DataFrame` of density data is a list of records in table order;
  the `dump_time` index of each row is stored in the record itself (the
  `set_index("dump_time")` step of `db_to_pandas`).  The `.astype('category')`
  conversions change only the physical representation of the name columns,
  not any value, so they are identities here.
* `int64` columns become `Int`; the float mean of `Series.mean` becomes the
  exact rational mean `ℚ`.
* Python exceptions (`KeyError` from `GroupBy.get_group`, `IndexError` from
  indexing an empty index, `ValueError` from a length-mismatched
  `pd.Series(data, index)`) become an `Except PyErr` result.
-/

namespace Density

/-- The Python exceptions the embedded code can raise. -/
inductive PyErr where
  | keyError : PyErr
  | indexError : PyErr
  | valueError : PyErr
deriving DecidableEq

/-- Seconds per day. -/
def secondsPerDay : Nat := 86400

/-- `Timestamp.dayofweek` for a timestamp given in seconds since the Unix
epoch: Monday = 0 … Sunday = 6 (1970-01-01 was a Thursday, day 3). -/
def dayofweek (t : Nat) : Nat := (t / secondsPerDay + 3) % 7

/-- `Timestamp.time()`: the time of day in seconds (encodes hour, minute and
second exactly). -/
def time_of_day (t : Nat) : Nat := t % secondsPerDay

/-- One row of the `density_data` table after `set_index("dump_time")`:
columns `group_id`, `group_name`, `parent_id`, `parent_name`, `client_count`,
indexed by the timestamp `dump_time`. -/
structure Record where
  dump_time : Nat
  group_id : Int
  group_name : String
  parent_id : Int
  parent_name : String
  client_count : Int
deriving DecidableEq

/-- The dataframe of density data: rows in table order. -/
abbrev DataFrame := List Record

/-- A database connection, abstracted to the full contents of the
`density_data` table that `SELECT * FROM density_data` returns. -/
structure Conn where
  rows : DataFrame

/-- `db_to_pandas(conn)`: reads the whole `density_data` table, sets
`dump_time` as the index and converts the name columns to categoricals
(a representation change only — values are untouched). -/
def db_to_pandas (conn : Conn) : DataFrame := conn.rows

/-- The groupby key used by `get_historical_means`:
`df.groupby([df.group_name, df.index.dayofweek, df.index.time])`. -/
def group_key (r : Record) : String × Nat × Nat :=
  (r.group_name, dayofweek r.dump_time, time_of_day r.dump_time)

/-- `groups.get_group(k)` for the groupby above: the rows whose key equals
`k`, in table order; raises `KeyError` when no row has key `k` (a groupby
only has groups for keys that occur). -/
def get_group? (df : DataFrame) (k : String × Nat × Nat) :
    Except PyErr DataFrame :=
  let g := df.filter (fun r => decide (group_key r = k))
  if g.isEmpty then .error .keyError else .ok g

/-- `Series.mean()` over an `int64` column, as an exact rational. -/
def series_mean (xs : List Int) : ℚ := (xs.sum : ℚ) / (xs.length : ℚ)

/-- `get_historical_means(df, floor, index)`: for each `date` in `index`,
look up the group `(floor, date.dayofweek, date.time())` and take the mean of
its `client_count` column.  The list comprehension evaluates the dates in
order and an unmatched date raises `KeyError` for the whole call. -/
def get_historical_means (df : DataFrame) (floor : String) :
    List Nat → Except PyErr (List ℚ)
  | [] => .ok []
  | date :: dates =>
    match get_group? df (floor, dayofweek date, time_of_day date) with
    | .error e => .error e
    | .ok g =>
      match get_historical_means df floor dates with
      | .error e => .error e
      | .ok rest =>
        .ok (series_mean (g.map (fun r => r.client_count)) :: rest)

/-- The subset of `df` that `get_historical_means` averages for a target
instant `t`: rows whose group name equals `floor`, whose timestamp's
day-of-week equals `dayofweek t` and whose timestamp's time-of-day equals
`time_of_day t`. -/
def matching (df : DataFrame) (floor : String) (t : Nat) : DataFrame :=
  df.filter (fun r => decide (r.group_name = floor ∧
    dayofweek r.dump_time = dayofweek t ∧
    time_of_day r.dump_time = time_of_day t))

/-- A `pandas.Series`: values zipped with a time index, optionally named.
(`pd.Series(means, index=index)` has no name; the observed series handed to
the renderer carries the floor name.) -/
structure PySeries where
  index : List Nat
  values : List ℚ
  name : Option String
deriving DecidableEq

/-- `df_predict(conn, index, floor)`: loads the table fresh via
`db_to_pandas`, delegates to `get_historical_means`, and zips the means with
`index` into a series. -/
def df_predict (conn : Conn) (index : List Nat) (floor : String) :
    Except PyErr PySeries :=
  match get_historical_means (db_to_pandas conn) floor index with
  | .error e => .error e
  | .ok means => .ok { index := index, values := means, name := none }

/-- `PeriodIndex(start=T, freq='15T', periods=24*4).to_datetime()`: 96
instants at 15-minute (900 s) steps whose first element is the start of the
15-minute period containing `T` (pandas period generation starts at the
period containing `start`, and `to_datetime` yields period start times). -/
def future_dts (T : Nat) : List Nat :=
  (List.range (24 * 4)).map (fun i => T / 900 * 900 + 900 * i)

/-- The bokeh figure built by `plot_prediction_point_estimate`, reduced to
the data and styling the module sets on it: two lines (observed past,
predicted future) over one datetime axis. -/
structure Chart where
  observed_index : List Nat
  observed_values : List ℚ
  observed_color : String
  predicted_index : List Nat
  predicted_values : List ℚ
  predicted_color : String
  predicted_dashed : Bool
  x_axis_label : String
  y_axis_label : String
deriving DecidableEq

/-- `plot_prediction_point_estimate(conn, series, predictor)`:
`series.index[-1]` raises `IndexError` on an empty series; otherwise the
future index is derived from the last observed instant, the predictor is
called as `predictor(conn, series.name, future_dts)`, the result is zipped
into `pd.Series(..., index=future_dts.to_datetime())` (which raises
`ValueError` on a length mismatch), and both lines are drawn. -/
def plot_prediction_point_estimate (conn : Conn) (series : PySeries)
    (predictor : Conn → Option String → List Nat → Except PyErr (List ℚ)) :
    Except PyErr Chart :=
  match series.index.getLast? with
  | none => .error .indexError
  | some T =>
    match predictor conn series.name (future_dts T) with
    | .error e => .error e
    | .ok preds =>
      if preds.length = (future_dts T).length then
        .ok { observed_index := series.index
              observed_values := series.values
              observed_color := "dodgerblue"
              predicted_index := future_dts T
              predicted_values := preds
              predicted_color := "crimson"
              predicted_dashed := true
              x_axis_label := "Time of Day"
              y_axis_label := "Capacity" }
      else .error .valueError

/-- The mean the source computes for one target instant: `Series.mean` of
the `client_count` column of the matching subset. -/
def mean_at (df : DataFrame) (floor : String) (t : Nat) : ℚ :=
  series_mean ((matching df floor t).map (fun r => r.client_count))

/-! ### State-threaded variants (for the frame property)

`DataFrame.groupby`, `GroupBy.get_group` and `Series.mean` all return fresh
derived objects and are documented not to modify the frame they are called
on (no `inplace` operation occurs anywhere in the module).  To state the
frame property we thread the dataframe as explicit state through each pandas
call the source makes, and prove the composition hands it back unchanged. -/

/-- `groups.get_group(k)` as a state-passing operation: produces the derived
sub-dataframe (or `KeyError`) alongside the grouped frame it leaves
untouched. -/
def get_group_op (st : DataFrame) (k : String × Nat × Nat) :
    Except PyErr DataFrame × DataFrame :=
  (get_group? st k, st)

/-- `get_historical_means` with the dataframe threaded as explicit state
through every pandas operation the comprehension performs. -/
def get_historical_means_st (st : DataFrame) (floor : String) :
    List Nat → Except PyErr (List ℚ) × DataFrame
  | [] => (.ok [], st)
  | date :: dates =>
    let p := get_group_op st (floor, dayofweek date, time_of_day date)
    match p.1 with
    | .error e => (.error e, p.2)
    | .ok g =>
      let q := get_historical_means_st p.2 floor dates
      match q.1 with
      | .error e => (.error e, q.2)
      | .ok rest =>
        (.ok (series_mean (g.map (fun r => r.client_count)) :: rest), q.2)

/-- `df_predict` with the loaded dataframe threaded as explicit state. -/
def df_predict_st (conn : Conn) (index : List Nat) (floor : String) :
    Except PyErr PySeries × DataFrame :=
  let df := db_to_pandas conn
  let r := get_historical_means_st df floor index
  (match r.1 with
   | .error e => .error e
   | .ok means => .ok { index := index, values := means, name := none }, r.2)

/-! ### Positional-argument model (for the predictor seam)

Python passes the renderer's predictor arguments positionally.  `PyArg`
is the runtime value placed in one argument slot, so that the call
`predictor(conn, series.name, future_dts)` and the parameter list
`df_predict(conn, index, floor)` can be compared. -/

/-- A dynamically-typed Python argument value as used at the predictor
seam: a string (floor name), `None` (an unnamed series' name), or a time
index. -/
inductive PyArg where
  | argStr : String → PyArg
  | argNone : PyArg
  | argIndex : List Nat → PyArg
deriving DecidableEq

/-- The Python value of `series.name` as an argument. -/
def pyArgOfName : Option String → PyArg
  | some s => .argStr s
  | none => .argNone

/-- The second and third positional arguments of the call
`predictor(conn, series.name, future_dts)` in
`plot_prediction_point_estimate` (the first is the connection). -/
def renderer_predictor_args (series : PySeries) (T : Nat) : PyArg × PyArg :=
  (pyArgOfName series.name, .argIndex (future_dts T))

/-- The values bound to `df_predict`'s named parameters. -/
structure DfPredictBinding where
  index : PyArg
  floor : PyArg
deriving DecidableEq

/-- Positional binding for `def df_predict(conn, index, floor)`: the second
positional argument lands in the parameter named `index`, the third in the
parameter named `floor`. -/
def df_predict_positional_binding (a b : PyArg) : DfPredictBinding :=
  { index := a, floor := b }

/-! ### Sample data used by the concrete witnesses

1970-01-01 (epoch day 0) was a Thursday, so epoch day 4 is a Monday.
`monday9 = 4*86400 + 32400` is a Monday at 09:00:00; the three records below
are Mondays at 09:00 one week apart with client counts 10, 20, 30. -/

def monday9 : Nat := 4 * 86400 + 32400

def sample_df : DataFrame :=
  [ { dump_time := monday9, group_id := 1, group_name := "3rd-floor",
      parent_id := 10, parent_name := "butler", client_count := 10 },
    { dump_time := monday9 + 7 * 86400, group_id := 1,
      group_name := "3rd-floor", parent_id := 10, parent_name := "butler",
      client_count := 20 },
    { dump_time := monday9 + 14 * 86400, group_id := 1,
      group_name := "3rd-floor", parent_id := 10, parent_name := "butler",
      client_count := 30 } ]

def sample_conn : Conn := { rows := sample_df }

/-- An observed series for the renderer: one point at `monday9` for floor
"3rd-floor". -/
def series_obs : PySeries :=
  { index := [monday9], values := [20], name := some "3rd-floor" }

/-- An empty observed series. -/
def series_empty : PySeries := { index := [], values := [], name := some "3rd-floor" }

/-- A predictor test double satisfying the prediction-function boundary:
returns 0 for every requested instant. -/
def zero_predictor : Conn → Option String → List Nat → Except PyErr (List ℚ) :=
  fun _ _ dts => .ok (dts.map (fun _ => 0))

/-- A record at Monday 09:01, one minute off the 09:00 time-of-day. -/
def r_offgrid : Record :=
  { dump_time := monday9 + 60, group_id := 1, group_name := "3rd-floor",
    parent_id := 10, parent_name := "butler", client_count := 999 }

/-- The chart `plot_prediction_point_estimate` produces for `series_obs`
with `zero_predictor`. -/
def sample_chart : Chart :=
  { observed_index := [monday9]
    observed_values := [20]
    observed_color := "dodgerblue"
    predicted_index := future_dts monday9
    predicted_values := (future_dts monday9).map (fun _ => 0)
    predicted_color := "crimson"
    predicted_dashed := true
    x_axis_label := "Time of Day"
    y_axis_label := "Capacity" }

/-! ### Helper lemmas about the estimator -/

lemma matching_eq (df : DataFrame) (floor : String) (t : Nat) :
    df.filter (fun r => decide (group_key r = (floor, dayofweek t, time_of_day t))) =
      matching df floor t := by
  unfold matching
  apply List.filter_congr
  intro r _
  simp [group_key, Prod.ext_iff]

lemma get_group?_eq_matching (df : DataFrame) (floor : String) (t : Nat) :
    get_group? df (floor, dayofweek t, time_of_day t) =
      if matching df floor t = [] then .error .keyError
      else .ok (matching df floor t) := by
  unfold get_group?
  rw [matching_eq]
  simp [List.isEmpty_iff]

lemma ghm_ok_of_forall (df : DataFrame) (floor : String) :
    ∀ index : List Nat, (∀ t ∈ index, matching df floor t ≠ []) →
      get_historical_means df floor index = .ok (index.map (mean_at df floor))
  | [], _ => rfl
  | d :: ds, h => by
    have hd : matching df floor d ≠ [] := h d (by simp)
    have ih := ghm_ok_of_forall df floor ds (fun t ht => h t (by simp [ht]))
    simp [get_historical_means, get_group?_eq_matching, hd, ih, mean_at]

lemma ghm_err_of_empty (df : DataFrame) (floor : String) :
    ∀ (index : List Nat) (t : Nat), t ∈ index → matching df floor t = [] →
      get_historical_means df floor index = .error .keyError
  | d :: ds, t, ht, hm => by
    rcases List.mem_cons.mp ht with h | h
    · subst h
      simp [get_historical_means, get_group?_eq_matching, hm]
    · by_cases hd : matching df floor d = []
      · simp [get_historical_means, get_group?_eq_matching, hd]
      · have ih := ghm_err_of_empty df floor ds t h hm
        simp [get_historical_means, get_group?_eq_matching, hd, ih]

lemma ghm_ok_means (df : DataFrame) (floor : String) :
    ∀ (index : List Nat) (means : List ℚ),
      get_historical_means df floor index = .ok means →
      means = index.map (mean_at df floor)
  | [], means, h => by
    simpa [get_historical_means] using h.symm
  | d :: ds, means, h => by
    by_cases hd : matching df floor d = []
    · simp [get_historical_means, get_group?_eq_matching, hd] at h
    · cases hrest : get_historical_means df floor ds with
      | error e =>
        simp [get_historical_means, get_group?_eq_matching, hd, hrest] at h
      | ok rest =>
        have ih := ghm_ok_means df floor ds rest hrest
        simp [get_historical_means, get_group?_eq_matching, hd, hrest] at h
        simp [← h, ih, mean_at]

/-! ### Helper lemmas about the future index -/

lemma future_dts_length (T : Nat) : (future_dts T).length = 96 := by
  simp [future_dts]

lemma future_dts_getElem? (T i : Nat) (h : i < 96) :
    (future_dts T)[i]? = some (T / 900 * 900 + 900 * i) := by
  simp [future_dts, List.getElem?_range, h]

lemma future_dts_head? (T : Nat) :
    (future_dts T).head? = some (T / 900 * 900) := by
  have h := future_dts_getElem? T 0 (by norm_num)
  simpa [← List.head?_eq_getElem?] using h

/-! ### Helper lemmas about the state-threaded variants -/

lemma ghm_st_frame (st : DataFrame) (floor : String) :
    ∀ index : List Nat, (get_historical_means_st st floor index).2 = st
  | [] => rfl
  | d :: ds => by
    have ih := ghm_st_frame st floor ds
    simp only [get_historical_means_st, get_group_op]
    cases get_group? st (floor, dayofweek d, time_of_day d) with
    | error e => rfl
    | ok g =>
      simp only []
      cases hq : (get_historical_means_st st floor ds).1 with
      | error e => simpa [hq] using ih
      | ok rest => simpa [hq] using ih

lemma ghm_st_fst (st : DataFrame) (floor : String) :
    ∀ index : List Nat,
      (get_historical_means_st st floor index).1 =
        get_historical_means st floor index
  | [] => rfl
  | d :: ds => by
    have ih := ghm_st_fst st floor ds
    simp only [get_historical_means_st, get_group_op, get_historical_means]
    cases get_group? st (floor, dayofweek d, time_of_day d) with
    | error e => rfl
    | ok g =>
      simp only []
      rw [← ih]
      cases hq : (get_historical_means_st st floor ds).1 with
      | error e => rfl
      | ok rest => rfl

/-! ### Concrete evaluations on the sample data -/

lemma sample_matching_monday9 :
    matching sample_df "3rd-floor" monday9 = sample_df := by decide

lemma sample_mean_monday9 : mean_at sample_df "3rd-floor" monday9 = 20 := by
  rw [mean_at, sample_matching_monday9]
  norm_num [sample_df, series_mean]

lemma sample_ghm :
    get_historical_means sample_df "3rd-floor" [monday9] = .ok [20] := by
  rw [ghm_ok_of_forall _ _ _ (by decide)]
  simp [sample_mean_monday9]

lemma sample_df_predict :
    df_predict sample_conn [monday9] "3rd-floor" =
      .ok { index := [monday9], values := [20], name := none } := by
  unfold df_predict
  rw [show db_to_pandas sample_conn = sample_df from rfl, sample_ghm]

lemma sample_plot :
    plot_prediction_point_estimate sample_conn series_obs zero_predictor =
      .ok sample_chart := by
  rfl

/-! ### The claims -/

/-- Claim C1: whenever every target instant has at least one matching
historical record, `get_historical_means` returns, for each target instant,
the arithmetic mean of `client_count` over exactly the records whose group
name equals the floor and whose timestamp's day-of-week and time-of-day
equal those of the target. -/
theorem claim_c1_historical_mean_per_target (df : DataFrame) (floor : String)
    (index : List Nat) (h : ∀ t ∈ index, matching df floor t ≠ []) :
    get_historical_means df floor index = .ok (index.map (mean_at df floor)) :=
  ghm_ok_of_forall df floor index h

theorem claim_c1_witness :
    (∀ t ∈ [monday9], matching sample_df "3rd-floor" t ≠ []) ∧
    get_historical_means sample_df "3rd-floor" [monday9] =
      .ok ([monday9].map (mean_at sample_df "3rd-floor")) :=
  ⟨by decide,
   claim_c1_historical_mean_per_target sample_df "3rd-floor" [monday9]
     (by decide)⟩

/-- Claim C2: if some target instant has zero matching historical records
for the (floor, day-of-week, time-of-day) triple, the whole
`get_historical_means` call fails with a `KeyError`, and no `ok` sequence —
partial, shorter or with a sentinel — is returned. -/
theorem claim_c2_missing_history_fails_call (df : DataFrame) (floor : String)
    (index : List Nat) (t : Nat) (means : List ℚ) (ht : t ∈ index)
    (hm : matching df floor t = []) :
    get_historical_means df floor index = .error .keyError ∧
    get_historical_means df floor index ≠ .ok means := by
  have h := ghm_err_of_empty df floor index t ht hm
  exact ⟨h, by simp [h]⟩

theorem claim_c2_witness :
    (monday9 + 3600) ∈ [monday9, monday9 + 3600] ∧
    matching sample_df "3rd-floor" (monday9 + 3600) = [] ∧
    (get_historical_means sample_df "3rd-floor" [monday9, monday9 + 3600] =
        .error .keyError ∧
      get_historical_means sample_df "3rd-floor" [monday9, monday9 + 3600] ≠
        .ok [20]) :=
  ⟨by simp, by decide,
   claim_c2_missing_history_fails_call sample_df "3rd-floor"
     [monday9, monday9 + 3600] (monday9 + 3600) [20] (by simp) (by decide)⟩

/-- Claim C3 counterexample: with an observed series whose last instant is
`monday9` (which lies on the 15-minute grid), the future index the renderer
derives begins at `monday9` itself, which is not strictly after the last
observed instant — refuting the claim that the future index starts strictly
after it. -/
theorem claim_c3_counterexample :
    series_obs.index.getLast? = some monday9 ∧
    Except.map (fun ch => ch.predicted_index.head?)
      (plot_prediction_point_estimate sample_conn series_obs zero_predictor) =
      .ok (some monday9) ∧
    ¬ monday9 < monday9 := by
  refine ⟨rfl, ?_, by simp⟩
  rw [sample_plot]
  show Except.ok sample_chart.predicted_index.head? = _
  rw [show sample_chart.predicted_index = future_dts monday9 from rfl,
    future_dts_head?]
  norm_num [monday9]

/-- Claim C3 (amended): for every non-empty observed series with last
instant `T`, the renderer derives a future index of exactly 96 instants with
consecutive instants exactly 15 minutes (900 s) apart, whose first instant
is the start of the 15-minute period containing `T` — at or before `T`, not
strictly after it. -/
theorem claim_c3_future_index_amended (conn : Conn) (series : PySeries)
    (predictor : Conn → Option String → List Nat → Except PyErr (List ℚ))
    (T : Nat) (ch : Chart) (i a b : Nat)
    (hT : series.index.getLast? = some T)
    (hok : plot_prediction_point_estimate conn series predictor = .ok ch)
    (ha : ch.predicted_index[i]? = some a)
    (hb : ch.predicted_index[i + 1]? = some b) :
    ch.predicted_index.length = 96 ∧
    ch.predicted_index.head? = some (T / 900 * 900) ∧
    T / 900 * 900 ≤ T ∧
    b = a + 900 := by
  have hex : ∃ S, series.index.getLast? = some S ∧
      ch.predicted_index = future_dts S := by
    unfold plot_prediction_point_estimate at hok
    split at hok
    · exact absurd hok (by simp)
    · next S hL =>
      split at hok
      · exact absurd hok (by simp)
      · next preds hp =>
        split at hok
        · refine ⟨S, hL, ?_⟩
          cases hok
          rfl
        · exact absurd hok (by simp)
  obtain ⟨S, hL, hidx⟩ := hex
  rw [hT, Option.some.injEq] at hL
  subst hL
  rw [hidx] at ha hb
  have hi1 : i + 1 < 96 := by
    by_contra hcon
    rw [List.getElem?_eq_none (by rw [future_dts_length]; omega)] at hb
    exact Option.noConfusion hb
  rw [future_dts_getElem? T i (by omega)] at ha
  rw [future_dts_getElem? T (i + 1) hi1] at hb
  have ha' := Option.some.injEq _ _ ▸ ha
  have hb' := Option.some.injEq _ _ ▸ hb
  refine ⟨by rw [hidx, future_dts_length], by rw [hidx, future_dts_head?],
    Nat.div_mul_le_self T 900, ?_⟩
  omega

theorem claim_c3_witness :
    series_obs.index.getLast? = some monday9 ∧
    plot_prediction_point_estimate sample_conn series_obs zero_predictor =
      .ok sample_chart ∧
    sample_chart.predicted_index[0]? = some monday9 ∧
    sample_chart.predicted_index[0 + 1]? = some (monday9 + 900) ∧
    (sample_chart.predicted_index.length = 96 ∧
     sample_chart.predicted_index.head? = some (monday9 / 900 * 900) ∧
     monday9 / 900 * 900 ≤ monday9 ∧
     monday9 + 900 = monday9 + 900) :=
  ⟨rfl, sample_plot, by decide, by decide,
   claim_c3_future_index_amended sample_conn series_obs zero_predictor
     monday9 sample_chart 0 monday9 (monday9 + 900) rfl sample_plot
     (by decide) (by decide)⟩

/-- Claim C4: on success the returned sequence has exactly the length of the
target index, and the value at position `i` is the mean computed for the
target instant at position `i` (each position determined by its own target
instant alone). -/
theorem claim_c4_positional_alignment (df : DataFrame) (floor : String)
    (index : List Nat) (means : List ℚ) (i : Nat)
    (h : get_historical_means df floor index = .ok means)
    (hi : i < index.length) (hm : i < means.length) :
    means.length = index.length ∧
    means.get ⟨i, hm⟩ = mean_at df floor (index.get ⟨i, hi⟩) := by
  have he := ghm_ok_means df floor index means h
  subst he
  exact ⟨by simp, by simp⟩

theorem claim_c4_witness :
    get_historical_means sample_df "3rd-floor" [monday9] = .ok [20] ∧
    (([20] : List ℚ).length = [monday9].length ∧
     ([20] : List ℚ).get ⟨0, Nat.zero_lt_one⟩ =
       mean_at sample_df "3rd-floor" ([monday9].get ⟨0, Nat.zero_lt_one⟩)) :=
  ⟨sample_ghm,
   claim_c4_positional_alignment sample_df "3rd-floor" [monday9] [20] 0
     sample_ghm Nat.zero_lt_one Nat.zero_lt_one⟩

/-- Claim C5: when prediction succeeds, `df_predict` returns a series whose
index is exactly the supplied target index and whose values are exactly the
result of `get_historical_means` on the freshly loaded table with the same
floor and index; the result depends on the connection only through the table
`db_to_pandas` loads on this invocation (no cross-call cache). -/
theorem claim_c5_predict_series (conn conn₂ : Conn) (index : List Nat)
    (floor : String) (s : PySeries)
    (h : df_predict conn index floor = .ok s)
    (hconn : db_to_pandas conn₂ = db_to_pandas conn) :
    s.index = index ∧
    get_historical_means (db_to_pandas conn) floor index = .ok s.values ∧
    df_predict conn₂ index floor = df_predict conn index floor := by
  refine ⟨?_, ?_, by unfold df_predict; rw [hconn]⟩ <;>
  · unfold df_predict at h
    cases hg : get_historical_means (db_to_pandas conn) floor index with
    | error e => rw [hg] at h; exact absurd h (by simp)
    | ok means =>
      rw [hg] at h
      simp only [Except.ok.injEq] at h
      subst h
      simp [hg]

theorem claim_c5_witness :
    df_predict sample_conn [monday9] "3rd-floor" =
      .ok { index := [monday9], values := [20], name := none } ∧
    db_to_pandas sample_conn = db_to_pandas sample_conn ∧
    (PySeries.index { index := [monday9], values := [20], name := none } =
        [monday9] ∧
      get_historical_means (db_to_pandas sample_conn) "3rd-floor" [monday9] =
        .ok (PySeries.values { index := [monday9], values := [20], name := none }) ∧
      df_predict sample_conn [monday9] "3rd-floor" =
        df_predict sample_conn [monday9] "3rd-floor") :=
  ⟨sample_df_predict, rfl,
   claim_c5_predict_series sample_conn sample_conn [monday9] "3rd-floor"
     { index := [monday9], values := [20], name := none }
     sample_df_predict rfl⟩

/-- Claim C6: a historical record contributes to a target instant's mean
only if its time-of-day (hour, minute and second) is exactly equal to the
target's time-of-day: any record whose time-of-day differs is excluded from
the matching subset, and the value computed for the target is the mean over
that subset alone (no window or bucket matching). -/
theorem claim_c6_exact_time_of_day_match (df : DataFrame) (floor : String)
    (t : Nat) (r : Record)
    (hne : time_of_day r.dump_time ≠ time_of_day t)
    (hm : matching df floor t ≠ []) :
    r ∉ matching df floor t ∧
    get_historical_means df floor [t] = .ok [mean_at df floor t] := by
  constructor
  · intro hmem
    unfold matching at hmem
    rw [List.mem_filter] at hmem
    have hp := hmem.2
    simp only [decide_eq_true_eq] at hp
    exact hne hp.2.2
  · have h := ghm_ok_of_forall df floor [t] (by simpa using hm)
    simpa using h

theorem claim_c6_witness :
    time_of_day r_offgrid.dump_time ≠ time_of_day monday9 ∧
    matching sample_df "3rd-floor" monday9 ≠ [] ∧
    (r_offgrid ∉ matching sample_df "3rd-floor" monday9 ∧
      get_historical_means sample_df "3rd-floor" [monday9] =
        .ok [mean_at sample_df "3rd-floor" monday9]) :=
  ⟨by decide, by decide,
   claim_c6_exact_time_of_day_match sample_df "3rd-floor" monday9 r_offgrid
     (by decide) (by decide)⟩

/-- Claim C7: an empty observed series is rejected by the renderer with an
`IndexError` (there is no last instant to anchor the future index from); no
chart is produced. -/
theorem claim_c7_empty_series_rejected (conn : Conn) (series : PySeries)
    (predictor : Conn → Option String → List Nat → Except PyErr (List ℚ))
    (ch : Chart) (h : series.index = []) :
    plot_prediction_point_estimate conn series predictor =
      .error .indexError ∧
    plot_prediction_point_estimate conn series predictor ≠ .ok ch := by
  have hL : series.index.getLast? = none := by rw [h]; rfl
  have hplot : plot_prediction_point_estimate conn series predictor =
      .error .indexError := by
    unfold plot_prediction_point_estimate
    rw [hL]
  exact ⟨hplot, by simp [hplot]⟩

theorem claim_c7_witness :
    series_empty.index = ([] : List Nat) ∧
    (plot_prediction_point_estimate sample_conn series_empty zero_predictor =
        .error .indexError ∧
      plot_prediction_point_estimate sample_conn series_empty zero_predictor ≠
        .ok sample_chart) :=
  ⟨rfl,
   claim_c7_empty_series_rejected sample_conn series_empty zero_predictor
     sample_chart rfl⟩

/-- Claim C8: two calls to `get_historical_means` with identical table,
floor and target index return identical result sequences — the computation
is a pure function of its inputs, with no hidden randomness or
time-dependent state. -/
theorem claim_c8_deterministic (df₁ df₂ : DataFrame) (floor₁ floor₂ : String)
    (index₁ index₂ : List Nat) (hdf : df₁ = df₂) (hf : floor₁ = floor₂)
    (hi : index₁ = index₂) :
    get_historical_means df₁ floor₁ index₁ =
      get_historical_means df₂ floor₂ index₂ := by
  rw [hdf, hf, hi]

theorem claim_c8_witness :
    sample_df = sample_df ∧ "3rd-floor" = "3rd-floor" ∧
    [monday9] = [monday9] ∧
    get_historical_means sample_df "3rd-floor" [monday9] =
      get_historical_means sample_df "3rd-floor" [monday9] :=
  ⟨rfl, rfl, rfl,
   claim_c8_deterministic sample_df sample_df "3rd-floor" "3rd-floor"
     [monday9] [monday9] rfl rfl rfl⟩

/-- Claim C9: for a non-empty observed series the renderer consults its
injected predictor exactly at the arguments
`(conn, series.name, future index)` — connection first, floor name second,
index third — while `df_predict`'s own positional parameters are
`(conn, index, floor)`; so `df_predict` used directly as the renderer's
predictor has the floor name bound to its `index` parameter and the future
index bound to its `floor` parameter. -/
theorem claim_c9_predictor_argument_order (conn : Conn) (series : PySeries)
    (p q : Conn → Option String → List Nat → Except PyErr (List ℚ))
    (T : Nat) (c : Conn) (i : List Nat) (f : String)
    (hT : series.index.getLast? = some T)
    (hpq : p conn series.name (future_dts T) =
      q conn series.name (future_dts T)) :
    plot_prediction_point_estimate conn series p =
      plot_prediction_point_estimate conn series q ∧
    (df_predict_positional_binding (renderer_predictor_args series T).1
        (renderer_predictor_args series T).2).index =
      pyArgOfName series.name ∧
    (df_predict_positional_binding (renderer_predictor_args series T).1
        (renderer_predictor_args series T).2).floor =
      .argIndex (future_dts T) ∧
    df_predict c i f =
      (match get_historical_means (db_to_pandas c) f i with
       | .error e => .error e
       | .ok means => .ok { index := i, values := means, name := none }) := by
  refine ⟨?_, rfl, rfl, rfl⟩
  unfold plot_prediction_point_estimate
  rw [hT]
  show (match p conn series.name (future_dts T) with
    | Except.error e => Except.error e
    | Except.ok preds => _) = _
  rw [hpq]

theorem claim_c9_witness :
    series_obs.index.getLast? = some monday9 ∧
    zero_predictor sample_conn series_obs.name (future_dts monday9) =
      zero_predictor sample_conn series_obs.name (future_dts monday9) ∧
    (plot_prediction_point_estimate sample_conn series_obs zero_predictor =
        plot_prediction_point_estimate sample_conn series_obs zero_predictor ∧
      (df_predict_positional_binding
          (renderer_predictor_args series_obs monday9).1
          (renderer_predictor_args series_obs monday9).2).index =
        pyArgOfName series_obs.name ∧
      (df_predict_positional_binding
          (renderer_predictor_args series_obs monday9).1
          (renderer_predictor_args series_obs monday9).2).floor =
        .argIndex (future_dts monday9) ∧
      df_predict sample_conn [monday9] "3rd-floor" =
        (match get_historical_means (db_to_pandas sample_conn) "3rd-floor"
            [monday9] with
         | .error e => .error e
         | .ok means =>
            .ok { index := [monday9], values := means, name := none })) :=
  ⟨rfl, rfl,
   claim_c9_predictor_argument_order sample_conn series_obs zero_predictor
     zero_predictor monday9 sample_conn [monday9] "3rd-floor" rfl rfl⟩

/-- Claim C10: `get_historical_means` and `df_predict` never mutate the
dataframe they operate on: threading the dataframe as explicit state through
every pandas operation the source performs, the state handed back equals the
input table, and the computed result agrees with the pure reading. -/
theorem claim_c10_no_mutation (df : DataFrame) (floor : String)
    (index : List Nat) (conn : Conn) (index₂ : List Nat) (floor₂ : String) :
    (get_historical_means_st df floor index).2 = df ∧
    (df_predict_st conn index₂ floor₂).2 = db_to_pandas conn ∧
    (get_historical_means_st df floor index).1 =
      get_historical_means df floor index ∧
    (df_predict_st conn index₂ floor₂).1 = df_predict conn index₂ floor₂ := by
  refine ⟨ghm_st_frame df floor index, ?_, ghm_st_fst df floor index, ?_⟩
  · exact ghm_st_frame (db_to_pandas conn) floor₂ index₂
  · show (match (get_historical_means_st (db_to_pandas conn) floor₂ index₂).1 with
      | Except.error e => (Except.error e : Except PyErr PySeries)
      | Except.ok means =>
          Except.ok { index := index₂, values := means, name := none }) = _
    rw [ghm_st_fst]
    rfl
